import Mathlib

/-!
Verification development for the JDAM simulation core (`jdamertti.py`):
the `GBU62_Simulator` trajectory engine and the `BombTracker` munition
lifecycle.  The Python floating-point arithmetic is embedded in the real
numbers (the spec explicitly disclaims bit-identical float results and
describes the algorithm over ideal arithmetic); transcendental functions
(`exp`, `sqrt`, `atan2`, `sin`, `cos`) are Mathlib's real functions.
-/

namespace Link18

noncomputable section

open Real (pi)

/-- Two-argument arctangent, as `math.atan2(y, x)` of the C library:
quadrant-correct angle of the vector `(x, y)`. -/
def atan2 (y x : ℝ) : ℝ :=
  if 0 < x then Real.arctan (y / x)
  else if x < 0 then
    (if 0 ≤ y then Real.arctan (y / x) + pi else Real.arctan (y / x) - pi)
  else if 0 < y then pi / 2
  else if y < 0 then -(pi / 2)
  else 0

/-- Radians to degrees (`math.degrees`). -/
def degrees (x : ℝ) : ℝ := x * 180 / pi

/-- Degrees to radians (`math.radians`). -/
def radians (x : ℝ) : ℝ := x * pi / 180

-- Physics constants (module-level constants of jdamertti.py)
def BALLISTIC_DURATION : ℝ := 2.5
def LOFT_TIMEOUT : ℝ := 10.0
def TTI_SCALE : ℝ := 1.349
def CD0_BASE : ℝ := 0.036
def K_INDUCED : ℝ := 0.015
def CL_ALPHA : ℝ := 1.5
def WING_AREA_MULT : ℝ := 5.7262
def MAX_FIN_AOA : ℝ := 0.5
def MACH_CRITICAL : ℝ := 1.289
def MACH_PEAK : ℝ := 1.6
def DRAG_RISE_MAGNITUDE : ℝ := 3.2
def MACH_LOW : ℝ := 0.6
def MACH_HIGH : ℝ := 0.95
def PITCH_LOW : ℝ := 11.49
def PITCH_HIGH : ℝ := 8.25
def PITCH_DIVE : ℝ := 15.68
def TERMINAL_LOS_THRESHOLD : ℝ := -19.04
def TERMINAL_DIST_THRESHOLD : ℝ := 2000
def LOFT_ELEVATION : ℝ := 35.0
def LOFT_GAIN : ℝ := 0.5
def G_LIMIT : ℝ := 2.75
def STEEP_DIVE_LOS : ℝ := -19.04
def MAX_RANGE_GLIDE : ℝ := 13.23

/-- Wave drag multiplier (`get_mach_drag_mult`). -/
def get_mach_drag_mult (mach : ℝ) : ℝ :=
  if mach < MACH_CRITICAL then 1.0
  else if mach < MACH_PEAK then
    1.0 + DRAG_RISE_MAGNITUDE *
      (Real.sin ((mach - MACH_CRITICAL) / (MACH_PEAK - MACH_CRITICAL) * pi / 2)) ^ 2
  else 1.0 + DRAG_RISE_MAGNITUDE

/-- Integration-method selector stored in a physics profile (`SOLVER` key). -/
inductive Solver
  | EULER
  | RK4
deriving DecidableEq

/-- An aerodynamic/guidance profile: one entry of `PHYSICS_PROFILES`. -/
structure PhysicsProfile where
  CD0 : ℝ
  K : ℝ
  CL_ALPHA : ℝ
  DRAG_MULT : ℝ
  LIFT_MULT : ℝ
  P_LOW : ℝ
  P_HIGH : ℝ
  TIME_SCALE : ℝ
  M_LOW : ℝ
  M_HIGH : ℝ
  MAX_AOA : ℝ
  SOLVER : Solver
  LOFT_ELEV : ℝ
  LOFT_GAIN : ℝ
  TERM_LOS : ℝ

/-- Flight mode returned by the classifier. -/
inductive Mode
  | STANDARD
  | MAX_RANGE
  | STEEP_DIVE
deriving DecidableEq

/-- The `PHYSICS_PROFILES` table. -/
def PHYSICS_PROFILES : Mode → PhysicsProfile
  | .STANDARD =>
    { CD0 := 0.0157, K := 0.155, CL_ALPHA := 3.85,
      DRAG_MULT := 1.0, LIFT_MULT := 1.0,
      P_LOW := 6.0, P_HIGH := 13.0, TIME_SCALE := 1.03,
      M_LOW := 0.6, M_HIGH := 0.8,
      MAX_AOA := 0.386, SOLVER := .EULER,
      LOFT_ELEV := 5.0, LOFT_GAIN := 0.85, TERM_LOS := -50.0 }
  | .MAX_RANGE =>
    { CD0 := 0.036, K := 0.015, CL_ALPHA := 1.5,
      DRAG_MULT := 0.553, LIFT_MULT := 0.839,
      P_LOW := 11.49, P_HIGH := 8.25, TIME_SCALE := 1.349,
      M_LOW := 0.6, M_HIGH := 0.95,
      MAX_AOA := 0.5, SOLVER := .RK4,
      LOFT_ELEV := 35.0, LOFT_GAIN := 0.5, TERM_LOS := -19.04 }
  | .STEEP_DIVE =>
    { CD0 := 0.036, K := 0.015, CL_ALPHA := 1.5,
      DRAG_MULT := 4.471, LIFT_MULT := 0.868,
      P_LOW := 11.49, P_HIGH := 8.25, TIME_SCALE := 1.05,
      M_LOW := 0.6, M_HIGH := 0.95,
      MAX_AOA := 0.5, SOLVER := .RK4,
      LOFT_ELEV := 35.0, LOFT_GAIN := 0.5, TERM_LOS := -19.04 }

-- GBU62_Simulator instance constants (constructor fields; the tracker
-- constructs the simulator with the default dt = 0.05).
def mass : ℝ := 289.72
def caliber : ℝ := 0.273
def area : ℝ := pi * (caliber / 2) ^ 2
def g : ℝ := 9.81
def dt : ℝ := 0.05

/-- Air density (`get_air_density`). -/
def get_air_density (altitude : ℝ) : ℝ :=
  if altitude < 0 then 1.225 else 1.225 * Real.exp (-altitude / 8500.0)

/-- Sound speed (`get_sound_speed`). -/
def get_sound_speed (altitude : ℝ) : ℝ :=
  Real.sqrt (1.4 * 287.05 *
    (if 288.15 - 0.0065 * altitude < 216.65 then 216.65 else 288.15 - 0.0065 * altitude))

/-- Flight-mode classifier (`detect_flight_mode`).  Note: `mach` is accepted
but never read by the body, exactly as in the source. -/
def detect_flight_mode (alt mach dist : ℝ) : Mode :=
  if degrees (atan2 (-alt) dist) < STEEP_DIVE_LOS then .STEEP_DIVE
  else if (if alt > 0 then dist / alt else 999) > MAX_RANGE_GLIDE then .MAX_RANGE
  else .STANDARD

/-- Planar integration state `[x, y, vx, vy]` (also used for the derivative
4-vector `[vx, vy, ax, ay]`, as the source uses plain lists for both). -/
structure SimState where
  x : ℝ
  y : ℝ
  vx : ℝ
  vy : ℝ

/-- Clamp to a symmetric interval: `max(min(v, m), -m)` of the source. -/
def clampTo (v m : ℝ) : ℝ := max (min v m) (-m)

/-- Drag and lift forces of `compute_derivatives` (the aerodynamics lines,
factored out so the G-load claims can speak about the lift force). -/
def aeroForces (params : PhysicsProfile) (s : SimState) (target_aoa : ℝ) : ℝ × ℝ :=
  let v0 := Real.sqrt (s.vx ^ 2 + s.vy ^ 2)
  let v := if v0 < 1 then 1 else v0
  let rho := get_air_density s.y
  let sos := get_sound_speed s.y
  let mach := v / sos
  let q := 0.5 * rho * v ^ 2
  let alpha := clampTo target_aoa params.MAX_AOA
  let mach_mult := get_mach_drag_mult mach
  let cl := params.CL_ALPHA * alpha
  let cd := params.CD0 * mach_mult + params.K * cl ^ 2
  (q * area * WING_AREA_MULT * cd * params.DRAG_MULT,
   q * area * WING_AREA_MULT * cl * params.LIFT_MULT)

/-- Time derivatives for the RK4 solver (`compute_derivatives`):
returns `[vx, vy, ax, ay]`. -/
def compute_derivatives (params : PhysicsProfile) (s : SimState) (target_aoa : ℝ) : SimState :=
  let path_angle := atan2 s.vy s.vx
  let drag := (aeroForces params s target_aoa).1
  let lift := (aeroForces params s target_aoa).2
  let fx := -drag * Real.cos path_angle + -lift * Real.sin path_angle
  let fy := -drag * Real.sin path_angle + lift * Real.cos path_angle - mass * g
  ⟨s.vx, s.vy, fx / mass, fy / mass⟩

/-- Componentwise `s + k * c` used by the RK4 substeps. -/
def axpy (s k : SimState) (c : ℝ) : SimState :=
  ⟨s.x + k.x * c, s.y + k.y * c, s.vx + k.vx * c, s.vy + k.vy * c⟩

/-- Classical RK4 step (`rk4_step`). -/
def rk4_step (params : PhysicsProfile) (s : SimState) (dtv target_aoa : ℝ) : SimState :=
  let k1 := compute_derivatives params s target_aoa
  let s2 := axpy s k1 (0.5 * dtv)
  let k2 := compute_derivatives params s2 target_aoa
  let s3 := axpy s k2 (0.5 * dtv)
  let k3 := compute_derivatives params s3 target_aoa
  let s4 := axpy s k3 dtv
  let k4 := compute_derivatives params s4 target_aoa
  ⟨s.x + dtv / 6 * (k1.x + 2 * k2.x + 2 * k3.x + k4.x),
   s.y + dtv / 6 * (k1.y + 2 * k2.y + 2 * k3.y + k4.y),
   s.vx + dtv / 6 * (k1.vx + 2 * k2.vx + 2 * k3.vx + k4.vx),
   s.vy + dtv / 6 * (k1.vy + 2 * k2.vy + 2 * k3.vy + k4.vy)⟩

open Classical in
/-- Lift and drag of the legacy Euler step (`euler_step` aerodynamics):
the v1.5 models when the bound profile is the STANDARD one, the generic
profile model otherwise. -/
def eulerForces (params : PhysicsProfile) (s : SimState) (target_aoa : ℝ) : ℝ × ℝ :=
  let v := Real.sqrt (s.vx ^ 2 + s.vy ^ 2)
  let rho := get_air_density s.y
  let sos := get_sound_speed s.y
  let mach := v / sos
  let q := 0.5 * rho * v ^ 2
  if params = PHYSICS_PROFILES .STANDARD then
    let alpha := clampTo target_aoa 0.386
    let cl := 3.5 * (2 * pi) * Real.sin alpha
    let cd_local := 0.0257 + 1.075 * 3.5 * Real.sin alpha ^ 2
    (q * area * cl, q * (area * 3.5) * cd_local)
  else
    let alpha := clampTo target_aoa params.MAX_AOA
    let mach_mult := get_mach_drag_mult mach
    let cl := params.CL_ALPHA * alpha
    let cd := params.CD0 * mach_mult + params.K * cl ^ 2
    (q * area * WING_AREA_MULT * cl * params.LIFT_MULT,
     q * area * WING_AREA_MULT * cd * params.DRAG_MULT)

/-- The normal (across-path) acceleration actually used by `euler_step`:
`(f_lift + f_grav_norm) / mass`, clamped to `± G_LIMIT * g`. -/
def eulerANorm (params : PhysicsProfile) (s : SimState) (target_aoa : ℝ) : ℝ :=
  let path_angle := atan2 s.vy s.vx
  clampTo (((eulerForces params s target_aoa).1 + -(mass * g * Real.cos path_angle)) / mass)
    (G_LIMIT * g)

/-- Legacy polar Euler step (`euler_step`). -/
def euler_step (params : PhysicsProfile) (s : SimState) (dtv target_aoa : ℝ) : SimState :=
  let v := Real.sqrt (s.vx ^ 2 + s.vy ^ 2)
  let path_angle := atan2 s.vy s.vx
  let drag := (eulerForces params s target_aoa).2
  let a_tan := (-drag + -(mass * g * Real.sin path_angle)) / mass
  let a_norm := eulerANorm params s target_aoa
  let v_new0 := v + a_tan * dtv
  let v_new := if v_new0 < 10 then 10 else v_new0
  let omega := if v > 1 then a_norm / v else 0
  let path_angle_new := path_angle + omega * dtv
  let vx_new := v_new * Real.cos path_angle_new
  let vy_new := v_new * Real.sin path_angle_new
  ⟨s.x + vx_new * dtv, s.y + vy_new * dtv, vx_new, vy_new⟩

/-- Guidance phase of a trajectory. -/
inductive Phase
  | RELEASE
  | BALLISTIC
  | LOFT
  | GLIDE
  | TERMINAL
deriving DecidableEq

/-- One sampled history entry:
(time, distance, altitude, speed, phase, path angle, angle of attack). -/
structure HEntry where
  t : ℝ
  dist : ℝ
  alt : ℝ
  speed : ℝ
  phase : Phase
  pathAngle : ℝ
  aoa : ℝ

/-- Per-run control parameters extracted by `run` before its loop. -/
structure RunParams where
  targetDist : ℝ
  mode : Mode
  skipLoft : Bool
  profile : PhysicsProfile
  pLow : ℝ
  pHigh : ℝ
  mLow : ℝ
  mHigh : ℝ
  timeScale : ℝ
  loftElev : ℝ
  loftGain : ℝ
  termLos : ℝ

/-- GLIDE-phase target pitch selection of `run` (the `target_pitch_deg`
if/elif chain). -/
def glideTargetPitchDeg (mode : Mode) (pLow pHigh mLow mHigh mach : ℝ) : ℝ :=
  if mode = Mode.STEEP_DIVE then PITCH_DIVE
  else if mode = Mode.MAX_RANGE then (if mach > MACH_HIGH then PITCH_HIGH else PITCH_LOW)
  else if mach < mLow then pLow
  else if mach > mHigh then pHigh
  else pLow + (mach - mLow) / (mHigh - mLow) * (pHigh - pLow)

/-- Output of one pass of the guidance logic: next phase, commanded angle
of attack, and the persistent `prev_los` cell. -/
structure GuidOut where
  phase : Phase
  aoa : ℝ
  prevLos : Option ℝ

/-- The guidance section of `run`'s loop body (phase update and target AoA).
The RELEASE fallthrough into the BALLISTIC branch matches the un-chained
`if` of the source; the later branches are the `elif` chain. -/
def guidanceStep (P : RunParams) (phase : Phase) (s : SimState) (t : ℝ)
    (prevLos : Option ℝ) : GuidOut :=
  let v := Real.sqrt (s.vx ^ 2 + s.vy ^ 2)
  let path_angle := atan2 s.vy s.vx
  let path_angle_deg := degrees path_angle
  let mach := v / get_sound_speed s.y
  let dist_to_go := P.targetDist - s.x
  let phase1 := if phase = Phase.RELEASE then Phase.BALLISTIC else phase
  if phase1 = Phase.BALLISTIC then
    { phase := if BALLISTIC_DURATION ≤ t then (if P.skipLoft then Phase.GLIDE else Phase.LOFT)
               else Phase.BALLISTIC,
      aoa := 0, prevLos := prevLos }
  else if phase1 = Phase.LOFT then
    let accel_cmd := (P.loftElev - path_angle_deg) * P.loftGain * g
    let q := 0.5 * get_air_density s.y * v ^ 2
    let req_lift := mass * accel_cmd
    let cl_needed := req_lift / (q * area * WING_AREA_MULT)
    { phase := if path_angle_deg > P.loftElev ∨ t > LOFT_TIMEOUT then Phase.GLIDE
               else Phase.LOFT,
      aoa := cl_needed / CL_ALPHA, prevLos := prevLos }
  else if phase1 = Phase.GLIDE then
    let target_pitch_deg := glideTargetPitchDeg P.mode P.pLow P.pHigh P.mLow P.mHigh mach
    let los_angle := atan2 (-s.y) dist_to_go
    { phase := if los_angle < radians P.termLos ∨ dist_to_go < TERMINAL_DIST_THRESHOLD
               then Phase.TERMINAL else Phase.GLIDE,
      aoa := radians target_pitch_deg - path_angle, prevLos := prevLos }
  else if phase1 = Phase.TERMINAL then
    let los_angle := atan2 (-s.y) dist_to_go
    let prev := prevLos.getD los_angle
    let los_rate := (los_angle - prev) / dt
    let accel_cmd := 4.0 * v * los_rate
    let lift_needed := mass * (accel_cmd + g * Real.cos path_angle)
    let q := 0.5 * get_air_density s.y * v ^ 2
    let cl_needed := lift_needed / (q * area * WING_AREA_MULT)
    { phase := Phase.TERMINAL, aoa := cl_needed / CL_ALPHA, prevLos := some los_angle }
  else
    { phase := phase1, aoa := 0, prevLos := prevLos }

/-- Full loop state of `run`: integration state, elapsed time, phase,
the `prev_los` cell and the sampled history. -/
structure LoopState where
  s : SimState
  t : ℝ
  phase : Phase
  prevLos : Option ℝ
  history : List HEntry

/-- The while-loop guard of `run`: `state[1] > 0 and t < 600`. -/
def loopCond (ls : LoopState) : Prop := ls.s.y > 0 ∧ ls.t < 600

instance (ls : LoopState) : Decidable (loopCond ls) := by
  unfold loopCond; infer_instance

/-- One full iteration of `run`'s loop: guidance, integration step,
time increment, and every-10th-step history sampling. -/
def stepF (P : RunParams) (ls : LoopState) : LoopState :=
  let v := Real.sqrt (ls.s.vx ^ 2 + ls.s.vy ^ 2)
  let gout := guidanceStep P ls.phase ls.s ls.t ls.prevLos
  let s' := if P.profile.SOLVER = Solver.EULER then euler_step P.profile ls.s dt gout.aoa
            else rk4_step P.profile ls.s dt gout.aoa
  let t' := ls.t + dt
  let history' :=
    if (⌊t' / dt⌋ : ℤ) % 10 = 0 then
      ls.history ++ [⟨t', s'.x, s'.y, v, gout.phase, atan2 s'.vy s'.vx,
        clampTo gout.aoa P.profile.MAX_AOA⟩]
    else ls.history
  { s := s', t := t', phase := gout.phase, prevLos := gout.prevLos, history := history' }

/-- The per-run parameter block `run` builds before its loop (mode
detection, profile binding, control-parameter extraction). -/
def runParams (alt mach distT : ℝ) : RunParams :=
  let mode := detect_flight_mode alt mach distT
  let prof := PHYSICS_PROFILES mode
  { targetDist := distT, mode := mode, skipLoft := decide (mode = Mode.STEEP_DIVE),
    profile := prof, pLow := prof.P_LOW, pHigh := prof.P_HIGH,
    mLow := prof.M_LOW, mHigh := prof.M_HIGH, timeScale := prof.TIME_SCALE,
    loftElev := prof.LOFT_ELEV, loftGain := prof.LOFT_GAIN, termLos := prof.TERM_LOS }

/-- Initial loop state of `run`: `[0, alt, mach * sos, 0]`, `t = 0`,
phase RELEASE, no previous line of sight, empty history. -/
def initState (alt mach : ℝ) : LoopState :=
  { s := ⟨0, alt, mach * get_sound_speed alt, 0⟩, t := 0, phase := .RELEASE,
    prevLos := none, history := [] }

/-- The state after `n` executed-or-skipped iterations of `run`'s loop:
once the guard fails the state is frozen (the loop has exited). -/
def statesAux (P : RunParams) (init : LoopState) : Nat → LoopState
  | 0 => init
  | n + 1 =>
    let prev := statesAux P init n
    if loopCond prev then stepF P prev else prev

/-- Loop-state trace of `run alt mach distT`. -/
def statesOf (alt mach distT : ℝ) (n : Nat) : LoopState :=
  statesAux (runParams alt mach distT) (initState alt mach) n

/-- The simulator entry point (`run`): since `t` advances by `dt = 0.05`
each iteration and the guard requires `t < 600`, the loop performs at most
12000 iterations, so the trace at index 12000 is the loop's final state
(proved below).  Returns `(t * time_scale, x, history)`. -/
def run (alt mach distT : ℝ) : ℝ × ℝ × List HEntry :=
  let fin := statesOf alt mach distT 12000
  (fin.t * (runParams alt mach distT).timeScale, fin.s.x, fin.history)

-- === BombTracker ===

/-- An exception escaping the simulator.  Python float arithmetic inside
`GBU62_Simulator.run` can raise (for example `OverflowError` when a squared
float exceeds the representable range), so the tracker embedding is
parameterized by the simulator outcome to model exception control flow. -/
inductive SimError
  | overflow
deriving DecidableEq

/-- Result triple of a successful `run`. -/
structure SimResult where
  tti : ℝ
  xFinal : ℝ
  history : List HEntry

/-- One record of `BombTracker.bombs`. -/
structure Bomb where
  id : Nat
  releaseTime : ℝ
  totalTti : ℝ
  impactTime : ℝ
  telemAlt : ℝ
  telemTas : ℝ
  telemPitch : ℝ
  telemDist : ℝ
  history : List HEntry
  mode : Mode
  label : String

/-- A line of the tracker's rolling log, by content (the source formats
these into strings; the timestamp prefix is display-only). -/
inductive LogMsg
  | dropLine (alt mach : ℝ) (mode : Mode)
  | distLine (d : ℝ)
  | releasedLine (tti : ℝ)

/-- The tracker state: records, id counter, rolling log. -/
structure BombTracker where
  bombs : List Bomb
  bombCounter : Nat
  logMessages : List LogMsg

def emptyTracker : BombTracker := ⟨[], 0, []⟩

/-- `BombTracker.log`: append, then discard the oldest beyond 20 lines. -/
def logAdd (tr : BombTracker) (m : LogMsg) : BombTracker :=
  let msgs := tr.logMessages ++ [m]
  { tr with logMessages := if 20 < msgs.length then msgs.tail else msgs }

/-- The target-distance defaulting of `add_bomb`:
`dist = target_distance if target_distance else 15000.0`.  Python
truthiness makes `None` and `0.0` (only) fall back to 15000. -/
def mkDist : Option ℝ → ℝ
  | none => 15000
  | some d => if d = 0 then 15000 else d

/-- Body of `add_bomb` after the target distance has been resolved:
counter increment, Mach conversion, mode detection, logging, simulation,
record construction and append.  There is no exception handler in the
source: a simulator error propagates (left component), with the side
effects performed before the raise (counter, log) retained. -/
def add_bombCore (simRun : ℝ → ℝ → ℝ → Except SimError SimResult)
    (tr : BombTracker) (now alt speedTas pitchDeg distT : ℝ) :
    Except SimError Unit × BombTracker :=
  let tr1 : BombTracker := { tr with bombCounter := tr.bombCounter + 1 }
  let sos := get_sound_speed alt
  let mach := speedTas / 3.6 / sos
  let mode := detect_flight_mode alt mach distT
  let tr2 := logAdd tr1 (.dropLine alt mach mode)
  let tr3 := logAdd tr2 (.distLine distT)
  match simRun alt mach distT with
  | .error e => (.error e, tr3)
  | .ok res =>
    let bomb : Bomb :=
      { id := tr3.bombCounter, releaseTime := now, totalTti := res.tti,
        impactTime := now + res.tti, telemAlt := alt, telemTas := speedTas,
        telemPitch := pitchDeg, telemDist := distT, history := res.history,
        mode := mode, label := "GBU-" ++ toString tr3.bombCounter }
    let tr4 : BombTracker := { tr3 with bombs := tr3.bombs ++ [bomb] }
    (.ok (), logAdd tr4 (.releasedLine res.tti))

/-- `BombTracker.add_bomb` (wall-clock time passed explicitly). -/
def add_bomb (simRun : ℝ → ℝ → ℝ → Except SimError SimResult)
    (tr : BombTracker) (now alt speedTas pitchDeg : ℝ)
    (targetDistance : Option ℝ) : Except SimError Unit × BombTracker :=
  add_bombCore simRun tr now alt speedTas pitchDeg (mkDist targetDistance)

/-- The embedded simulator as a non-raising callee (the ideal-arithmetic
executions of `run`, which have no failure points). -/
def simRunOk : ℝ → ℝ → ℝ → Except SimError SimResult :=
  fun a m d => .ok ⟨(run a m d).1, (run a m d).2.1, (run a m d).2.2⟩

/-- A simulator callee that raises, modelling a Python-level exception
(such as `OverflowError`) escaping `GBU62_Simulator.run`. -/
def failRun (e : SimError) : ℝ → ℝ → ℝ → Except SimError SimResult :=
  fun _ _ _ => .error e

/-- `BombTracker.update`: prune records whose impact time plus the 5 s
grace period has passed. -/
def update (tr : BombTracker) (now : ℝ) : BombTracker :=
  { tr with bombs := tr.bombs.filter (fun b => decide (now < b.impactTime + 5.0)) }

/-- One output row of `get_active_bombs`. -/
structure ActiveInfo where
  id : Nat
  remaining : ℝ
  status : String
  label : String
  mode : Mode
  totalTti : ℝ

/-- `BombTracker.get_active_bombs`: per-record remaining time and status. -/
def get_active_bombs (tr : BombTracker) (now : ℝ) : List ActiveInfo :=
  tr.bombs.map (fun b =>
    { id := b.id, remaining := b.impactTime - now,
      status := if b.impactTime - now > 0 then "FLYING" else "IMPACT",
      label := b.label, mode := b.mode, totalTti := b.totalTti })

end

end Link18

namespace Link18

noncomputable section

open Real (pi)

-- === Generic helper lemmas ===

theorem abs_clampTo_le {v m : ℝ} (hm : 0 ≤ m) : |clampTo v m| ≤ m := by
  rw [abs_le]
  refine ⟨le_max_right _ _, max_le (min_le_right _ _) (by linarith)⟩

theorem clampTo_eq_of_le {v m : ℝ} (hm : 0 ≤ m) (hv : m ≤ v) : clampTo v m = m := by
  unfold clampTo
  rw [min_eq_right hv, max_eq_left (by linarith)]

theorem profile_MAX_AOA_nonneg (mo : Mode) : 0 ≤ (PHYSICS_PROFILES mo).MAX_AOA := by
  cases mo <;> norm_num [PHYSICS_PROFILES]

theorem statesAux_succ (P : RunParams) (init : LoopState) (n : ℕ) :
    statesAux P init (n + 1) =
      if loopCond (statesAux P init n) then stepF P (statesAux P init n)
      else statesAux P init n := rfl

theorem stepF_t (P : RunParams) (ls : LoopState) : (stepF P ls).t = ls.t + dt := rfl

theorem stepF_phase (P : RunParams) (ls : LoopState) :
    (stepF P ls).phase = (guidanceStep P ls.phase ls.s ls.t ls.prevLos).phase := rfl

/-- Claim C10: the flight-mode classifier never reads its Mach argument:
any two Mach values produce the same mode for the same altitude and range. -/
theorem detect_flight_mode_ignores_mach :
    ∀ (alt dist m1 m2 : ℝ),
      detect_flight_mode alt m1 dist = detect_flight_mode alt m2 dist := by
  intro _ _ _ _
  rfl

/-- Claim C3: `detect_flight_mode` is a pure function of (altitude, Mach,
range) selecting exactly one mode in first-match order: STEEP_DIVE iff the
line-of-sight depression angle in degrees is below -19.04; otherwise
MAX_RANGE iff the (zero-altitude-guarded) glide ratio exceeds 13.23;
otherwise STANDARD; and re-evaluation on equal inputs yields the same mode. -/
theorem detect_flight_mode_first_match :
    ∀ alt mach dist : ℝ,
      (detect_flight_mode alt mach dist = Mode.STEEP_DIVE ↔
        degrees (atan2 (-alt) dist) < STEEP_DIVE_LOS)
      ∧ (detect_flight_mode alt mach dist = Mode.MAX_RANGE ↔
        ¬ degrees (atan2 (-alt) dist) < STEEP_DIVE_LOS ∧
          (if alt > 0 then dist / alt else 999) > MAX_RANGE_GLIDE)
      ∧ (detect_flight_mode alt mach dist = Mode.STANDARD ↔
        ¬ degrees (atan2 (-alt) dist) < STEEP_DIVE_LOS ∧
          ¬ (if alt > 0 then dist / alt else 999) > MAX_RANGE_GLIDE)
      ∧ detect_flight_mode alt mach dist = detect_flight_mode alt mach dist := by
  intro alt mach dist
  by_cases h1 : degrees (atan2 (-alt) dist) < STEEP_DIVE_LOS <;>
    by_cases h2 : (if alt > 0 then dist / alt else 999) > MAX_RANGE_GLIDE <;>
      simp [detect_flight_mode, h1, h2]

/-- Claim C9: `update` removes exactly the records whose impact time plus
the 5 s grace period has passed; under a fixed clock it is idempotent, and
repeated calls never increase the record count. -/
theorem update_prunes_exactly :
    ∀ (tr : BombTracker) (now now2 : ℝ),
      update (update tr now) now = update tr now
      ∧ (update tr now).bombs.length ≤ tr.bombs.length
      ∧ (update (update tr now) now2).bombs.length ≤ (update tr now).bombs.length
      ∧ ∀ b : Bomb, (b ∈ (update tr now).bombs ↔ b ∈ tr.bombs ∧ now < b.impactTime + 5.0) := by
  intro tr now now2
  refine ⟨?_, ?_, ?_, ?_⟩
  · simp [update, List.filter_filter]
  · exact List.length_filter_le _ tr.bombs
  · exact List.length_filter_le _ _
  · intro b
    simp [update, List.mem_filter]

/-- Claim C1 (amended): `add_bomb` substitutes the documented 15000 m
fallback exactly when the target distance is absent or zero (Python
falsiness); the resulting call is identical to one made with 15000 m. -/
theorem add_bomb_fallback_amended :
    ∀ (tr : BombTracker) (now alt speedTas pitchDeg : ℝ),
      add_bomb simRunOk tr now alt speedTas pitchDeg none
        = add_bomb simRunOk tr now alt speedTas pitchDeg (some 15000)
      ∧ add_bomb simRunOk tr now alt speedTas pitchDeg (some 0)
        = add_bomb simRunOk tr now alt speedTas pitchDeg (some 15000) := by
  intro tr now alt speedTas pitchDeg
  have h1 : mkDist none = mkDist (some 15000) := by norm_num [mkDist]
  have h2 : mkDist (some 0) = mkDist (some 15000) := by norm_num [mkDist]
  unfold add_bomb
  exact ⟨congrArg _ h1, congrArg _ h2⟩

/-- Claim C1 counterexample: a negative (hence non-positive) target range
of -1 m is NOT replaced by the fallback — the stored record keeps -1 and
differs from the record a 15000 m call stores, because the source guard is
Python truthiness (`if target_distance`), which only catches None and 0. -/
theorem add_bomb_fallback_counterexample :
    ((add_bomb simRunOk emptyTracker 0 1000 800 5 (some (-1))).2.bombs.map
        Bomb.telemDist) = [(-1 : ℝ)]
    ∧ ((add_bomb simRunOk emptyTracker 0 1000 800 5 (some 15000)).2.bombs.map
        Bomb.telemDist) = [(15000 : ℝ)]
    ∧ (-1 : ℝ) ≠ 15000 := by
  refine ⟨?_, ?_, by norm_num⟩ <;>
    norm_num [add_bomb, add_bombCore, mkDist, simRunOk, emptyTracker, logAdd]

/-- Claim C2 (amended): when the simulator raises inside `add_bomb`, the
exception propagates (there is no handler), but the add is fail-closed for
the record set: nothing is appended, the pre-existing bombs and their
`get_active_bombs` view are exactly as before (the id counter has been
incremented and the log extended, as those happen before the raise). -/
theorem add_bomb_error_fail_closed :
    ∀ (simRun : ℝ → ℝ → ℝ → Except SimError SimResult) (tr : BombTracker)
      (now alt speedTas pitchDeg : ℝ) (td : Option ℝ) (e : SimError),
      (add_bomb simRun tr now alt speedTas pitchDeg td).1 = Except.error e →
      (add_bomb simRun tr now alt speedTas pitchDeg td).2.bombs = tr.bombs
      ∧ (add_bomb simRun tr now alt speedTas pitchDeg td).2.bombCounter = tr.bombCounter + 1
      ∧ get_active_bombs (add_bomb simRun tr now alt speedTas pitchDeg td).2 now
          = get_active_bombs tr now := by
  intro simRun tr now alt speedTas pitchDeg td e h
  unfold add_bomb add_bombCore at h ⊢
  cases hres : simRun alt (speedTas / 3.6 / get_sound_speed alt) (mkDist td) with
  | error e2 =>
    simp only [hres] at h ⊢
    simp [logAdd, get_active_bombs]
  | ok res =>
    simp only [hres] at h
    simp at h

/-- Claim C2 counterexample: with a raising simulator the exception comes
back out of `add_bomb` uncaught — the result is the error itself, not a
success; `add_bomb` has no try/except boundary. -/
theorem add_bomb_error_not_caught :
    (add_bomb (failRun SimError.overflow) emptyTracker 0 1000 800 5 none).1
      = Except.error SimError.overflow
    ∧ (add_bomb (failRun SimError.overflow) emptyTracker 0 1000 800 5 none).1
      ≠ Except.ok () := by
  refine ⟨rfl, ?_⟩
  intro hc
  exact Except.noConfusion
    (show (Except.error SimError.overflow : Except SimError Unit) = Except.ok () from hc)

/-- Witness for C2's theorem at a concrete raising run. -/
theorem add_bomb_error_fail_closed_witness :
    (add_bomb (failRun SimError.overflow) emptyTracker 0 1000 800 5 none).1
        = Except.error SimError.overflow
    ∧ (add_bomb (failRun SimError.overflow) emptyTracker 0 1000 800 5 none).2.bombs
        = emptyTracker.bombs := by
  have h : (add_bomb (failRun SimError.overflow) emptyTracker 0 1000 800 5 none).1
      = Except.error SimError.overflow := rfl
  exact ⟨h, (add_bomb_error_fail_closed (failRun SimError.overflow) emptyTracker
    0 1000 800 5 none SimError.overflow h).1⟩

theorem guidance_glide_aoa (P : RunParams) (s : SimState) (t : ℝ) (po : Option ℝ) :
    (guidanceStep P Phase.GLIDE s t po).aoa
      = radians (glideTargetPitchDeg P.mode P.pLow P.pHigh P.mLow P.mHigh
          (Real.sqrt (s.vx ^ 2 + s.vy ^ 2) / get_sound_speed s.y)) - atan2 s.vy s.vx := by
  simp [guidanceStep]

/-- Claim C6 (amended): in GLIDE the target pitch is mode-dependent:
STEEP_DIVE uses the fixed dive pitch; MAX_RANGE uses a two-level schedule
(PITCH_HIGH above the high Mach breakpoint, else PITCH_LOW — a step, not an
interpolation); the remaining (STANDARD) branch interpolates linearly
across the profile Mach band with constant extension outside it; the
commanded angle of attack is the target pitch in radians minus the current
flight-path angle. -/
theorem glide_pitch_schedule (pl ph ml mh mach : ℝ) (P : RunParams) (s : SimState)
    (t : ℝ) (po : Option ℝ) :
    glideTargetPitchDeg Mode.STEEP_DIVE pl ph ml mh mach = PITCH_DIVE
    ∧ glideTargetPitchDeg Mode.MAX_RANGE pl ph ml mh mach
        = (if mach > MACH_HIGH then PITCH_HIGH else PITCH_LOW)
    ∧ glideTargetPitchDeg Mode.STANDARD pl ph ml mh mach
        = (if mach < ml then pl else if mach > mh then ph
           else pl + (mach - ml) / (mh - ml) * (ph - pl))
    ∧ (guidanceStep P Phase.GLIDE s t po).aoa
        = radians (glideTargetPitchDeg P.mode P.pLow P.pHigh P.mLow P.mHigh
            (Real.sqrt (s.vx ^ 2 + s.vy ^ 2) / get_sound_speed s.y)) - atan2 s.vy s.vx := by
  refine ⟨?_, ?_, ?_, guidance_glide_aoa P s t po⟩ <;> simp [glideTargetPitchDeg]

/-- Modelled from the spec: the linear Mach-band pitch interpolation
(constant outside the band) that the spec asserts for the MAX_RANGE mode. -/
def specLinearPitch (pLow pHigh mLow mHigh mach : ℝ) : ℝ :=
  if mach < mLow then pLow
  else if mach > mHigh then pHigh
  else pLow + (mach - mLow) / (mHigh - mLow) * (pHigh - pLow)

/-- Claim C6 counterexample: at Mach 0.775, mid-band, the code's MAX_RANGE
pitch is PITCH_LOW = 11.49 whereas the spec's linear interpolation yields
9.87 — MAX_RANGE does not interpolate. -/
theorem glide_pitch_not_interpolated :
    glideTargetPitchDeg Mode.MAX_RANGE PITCH_LOW PITCH_HIGH MACH_LOW MACH_HIGH 0.775
      = PITCH_LOW
    ∧ specLinearPitch PITCH_LOW PITCH_HIGH MACH_LOW MACH_HIGH 0.775 = 9.87
    ∧ PITCH_LOW ≠ (9.87 : ℝ) := by
  refine ⟨?_, ?_, by norm_num [PITCH_LOW]⟩
  · norm_num [glideTargetPitchDeg, MACH_HIGH, PITCH_LOW]
    intro h
    exact absurd h (by decide)
  · norm_num [specLinearPitch, MACH_LOW, MACH_HIGH, PITCH_LOW, PITCH_HIGH]

/-- Claim C7 (amended): the only G-limit in the code is in the legacy Euler
integrator, which clamps the total normal acceleration used to turn the
flight path (lift plus the across-path gravity component, not the angle of
attack) to magnitude at most G_LIMIT * g. -/
theorem euler_g_limit_clamped (params : PhysicsProfile) (s : SimState) (target_aoa : ℝ) :
    |eulerANorm params s target_aoa| ≤ G_LIMIT * g := by
  unfold eulerANorm
  exact abs_clampTo_le (by norm_num [G_LIMIT, g])

-- === History AoA bound (C8) ===

/-- All-entries bound on the recorded angle of attack of a history list. -/
def aoaListBounded (m : ℝ) : List HEntry → Prop
  | [] => True
  | e :: rest => |e.aoa| ≤ m ∧ aoaListBounded m rest

theorem aoaListBounded_append {m : ℝ} {l : List HEntry} {e : HEntry}
    (hl : aoaListBounded m l) (he : |e.aoa| ≤ m) : aoaListBounded m (l ++ [e]) := by
  induction l with
  | nil => exact ⟨he, trivial⟩
  | cons a rest ih => exact ⟨hl.1, ih hl.2⟩

theorem stepF_history_bounded (P : RunParams) (ls : LoopState) {m : ℝ}
    (hm : 0 ≤ m) (hP : P.profile.MAX_AOA = m) (hl : aoaListBounded m ls.history) :
    aoaListBounded m (stepF P ls).history := by
  have hstep : (stepF P ls).history =
      if (⌊(ls.t + dt) / dt⌋ : ℤ) % 10 = 0 then
        ls.history ++ [⟨ls.t + dt,
          (if P.profile.SOLVER = Solver.EULER then
            euler_step P.profile ls.s dt (guidanceStep P ls.phase ls.s ls.t ls.prevLos).aoa
           else rk4_step P.profile ls.s dt
            (guidanceStep P ls.phase ls.s ls.t ls.prevLos).aoa).x,
          (if P.profile.SOLVER = Solver.EULER then
            euler_step P.profile ls.s dt (guidanceStep P ls.phase ls.s ls.t ls.prevLos).aoa
           else rk4_step P.profile ls.s dt
            (guidanceStep P ls.phase ls.s ls.t ls.prevLos).aoa).y,
          Real.sqrt (ls.s.vx ^ 2 + ls.s.vy ^ 2),
          (guidanceStep P ls.phase ls.s ls.t ls.prevLos).phase,
          atan2 (if P.profile.SOLVER = Solver.EULER then
            euler_step P.profile ls.s dt (guidanceStep P ls.phase ls.s ls.t ls.prevLos).aoa
           else rk4_step P.profile ls.s dt
            (guidanceStep P ls.phase ls.s ls.t ls.prevLos).aoa).vy
            (if P.profile.SOLVER = Solver.EULER then
            euler_step P.profile ls.s dt (guidanceStep P ls.phase ls.s ls.t ls.prevLos).aoa
           else rk4_step P.profile ls.s dt
            (guidanceStep P ls.phase ls.s ls.t ls.prevLos).aoa).vx,
          clampTo (guidanceStep P ls.phase ls.s ls.t ls.prevLos).aoa P.profile.MAX_AOA⟩]
      else ls.history := rfl
  rw [hstep]
  by_cases hcond : ((⌊(ls.t + dt) / dt⌋ : ℤ) % 10 = 0)
  · rw [if_pos hcond]
    exact aoaListBounded_append hl (hP ▸ abs_clampTo_le (hP ▸ hm))
  · rw [if_neg hcond]
    exact hl

/-- Claim C8: in every run, at every point of the trace, every sampled
history entry's recorded angle of attack has magnitude at most the bound
profile's MAX_AOA — the AoA is clamped to that maximum on every sampling,
in every phase. -/
theorem history_aoa_bounded :
    ∀ (alt mach distT : ℝ) (n : ℕ),
      aoaListBounded (PHYSICS_PROFILES (detect_flight_mode alt mach distT)).MAX_AOA
        (statesOf alt mach distT n).history := by
  intro alt mach distT n
  induction n with
  | zero => trivial
  | succ k ih =>
    show aoaListBounded _ (statesAux _ _ (k + 1)).history
    rw [statesAux_succ]
    by_cases hc : loopCond (statesAux (runParams alt mach distT) (initState alt mach) k)
    · rw [if_pos hc]
      exact stepF_history_bounded _ _
        (profile_MAX_AOA_nonneg (detect_flight_mode alt mach distT)) rfl ih
    · rw [if_neg hc]
      exact ih

-- === Loop termination (C4) ===

theorem statesAux_frozen {P : RunParams} {init : LoopState} {n : ℕ}
    (h : ¬ loopCond (statesAux P init n)) :
    ∀ m : ℕ, statesAux P init (n + m) = statesAux P init n := by
  intro m
  induction m with
  | zero => rfl
  | succ k ih =>
    show statesAux P init ((n + k) + 1) = _
    rw [statesAux_succ, ih, if_neg h]

theorem statesOf_succ (alt mach distT : ℝ) (n : ℕ) :
    statesOf alt mach distT (n + 1) =
      if loopCond (statesOf alt mach distT n) then
        stepF (runParams alt mach distT) (statesOf alt mach distT n)
      else statesOf alt mach distT n := rfl

theorem statesOf_t_grid (alt mach distT : ℝ) :
    ∀ n : ℕ, ∃ k : ℕ, k ≤ n ∧ (statesOf alt mach distT n).t = k * dt
      ∧ (k = n ∨ ¬ loopCond (statesOf alt mach distT n)) := by
  intro n
  induction n with
  | zero => exact ⟨0, le_refl 0, by norm_num [statesOf, statesAux, initState], Or.inl rfl⟩
  | succ m ih =>
    obtain ⟨k, hk, ht, hor⟩ := ih
    by_cases hc : loopCond (statesOf alt mach distT m)
    · have hkm : k = m := by
        rcases hor with h | h
        · exact h
        · exact absurd hc h
      refine ⟨m + 1, le_refl _, ?_, Or.inl rfl⟩
      rw [statesOf_succ, if_pos hc, stepF_t]
      have ht2 : (statesOf alt mach distT m).t = m * dt := by rw [ht, hkm]
      rw [ht2]
      push_cast
      ring
    · refine ⟨k, le_trans hk (Nat.le_succ m), ?_, Or.inr ?_⟩
      · rw [statesOf_succ, if_neg hc]
        exact ht
      · rw [statesOf_succ, if_neg hc]
        exact hc

theorem statesOf_t_le_600 (alt mach distT : ℝ) :
    ∀ n : ℕ, (statesOf alt mach distT n).t ≤ 600 := by
  intro n
  induction n with
  | zero => norm_num [statesOf, statesAux, initState]
  | succ m ih =>
    by_cases hc : loopCond (statesOf alt mach distT m)
    · obtain ⟨k, hk, ht, hor⟩ := statesOf_t_grid alt mach distT m
      have hlt : (statesOf alt mach distT m).t < 600 := hc.2
      have hkdt : (k : ℝ) * dt < 600 := ht ▸ hlt
      have hdt : dt = 0.05 := rfl
      rw [hdt] at hkdt
      have hkub : (k : ℝ) < 12000 := by linarith
      have hkub2 : (k : ℝ) ≤ 11999 := by
        have hn : k < 12000 := by exact_mod_cast hkub
        exact_mod_cast Nat.lt_succ_iff.mp (by omega)
      rw [statesOf_succ, if_pos hc, stepF_t, ht, hdt]
      linarith
    · rw [statesOf_succ, if_neg hc]
      exact ih

/-- Claim C4: for every release with 0 < altitude < 20000 m and Mach in
(0, 3), the integration loop of `run` terminates: by step 12000 (the
600 s / 0.05 s ceiling) the guard has failed, the loop state is frozen from
then on, elapsed time never exceeds 600 s, and at exit either altitude is
non-positive or the time ceiling of exactly 600 s was reached; `run`
returns the data of that final state. -/
theorem run_loop_terminates (alt mach distT : ℝ)
    (h1 : 0 < alt) (h2 : alt < 20000) (h3 : 0 < mach) (h4 : mach < 3) :
    ¬ loopCond (statesOf alt mach distT 12000)
    ∧ ((statesOf alt mach distT 12000).s.y ≤ 0 ∨ (statesOf alt mach distT 12000).t = 600)
    ∧ (statesOf alt mach distT 12000).t ≤ 600
    ∧ (∀ j : ℕ, statesOf alt mach distT (12000 + j) = statesOf alt mach distT 12000)
    ∧ run alt mach distT
        = ((statesOf alt mach distT 12000).t * (runParams alt mach distT).timeScale,
           (statesOf alt mach distT 12000).s.x, (statesOf alt mach distT 12000).history) := by
  obtain ⟨k, hk, ht, hor⟩ := statesOf_t_grid alt mach distT 12000
  have hne : ¬ loopCond (statesOf alt mach distT 12000) := by
    rcases hor with hkeq | hnc
    · intro hcond
      have h600 : (statesOf alt mach distT 12000).t = 600 := by
        rw [ht, hkeq]
        norm_num [dt]
      have hlt600 : (statesOf alt mach distT 12000).t < 600 := hcond.2
      rw [h600] at hlt600
      exact absurd hlt600 (by norm_num)
    · exact hnc
  refine ⟨hne, ?_, statesOf_t_le_600 alt mach distT 12000, ?_, rfl⟩
  · by_cases hy : (statesOf alt mach distT 12000).s.y ≤ 0
    · exact Or.inl hy
    · right
      have hygt : (statesOf alt mach distT 12000).s.y > 0 := lt_of_not_le hy
      have hnlt : ¬ (statesOf alt mach distT 12000).t < 600 := fun hlt => hne ⟨hygt, hlt⟩
      exact le_antisymm (statesOf_t_le_600 alt mach distT 12000) (not_lt.mp hnlt)
  · intro j
    exact statesAux_frozen hne j

/-- Witness for C4 at a concrete release. -/
theorem run_loop_terminates_witness :
    0 < (9000 : ℝ) ∧ ¬ loopCond (statesOf 9000 0.9 15000 12000) :=
  ⟨by norm_num, (run_loop_terminates 9000 0.9 15000 (by norm_num) (by norm_num)
    (by norm_num) (by norm_num)).1⟩

-- === Phase state machine (C5) ===

theorem guidance_release_phase (P : RunParams) (s : SimState) (t : ℝ) (po : Option ℝ) :
    (guidanceStep P Phase.RELEASE s t po).phase
      = if BALLISTIC_DURATION ≤ t then (if P.skipLoft then Phase.GLIDE else Phase.LOFT)
        else Phase.BALLISTIC := by
  simp [guidanceStep]

theorem guidance_ballistic_phase (P : RunParams) (s : SimState) (t : ℝ) (po : Option ℝ) :
    (guidanceStep P Phase.BALLISTIC s t po).phase
      = if BALLISTIC_DURATION ≤ t then (if P.skipLoft then Phase.GLIDE else Phase.LOFT)
        else Phase.BALLISTIC := by
  simp [guidanceStep]

theorem guidance_loft_phase (P : RunParams) (s : SimState) (t : ℝ) (po : Option ℝ) :
    (guidanceStep P Phase.LOFT s t po).phase
      = if degrees (atan2 s.vy s.vx) > P.loftElev ∨ t > LOFT_TIMEOUT then Phase.GLIDE
        else Phase.LOFT := by
  simp [guidanceStep]

theorem guidance_glide_phase (P : RunParams) (s : SimState) (t : ℝ) (po : Option ℝ) :
    (guidanceStep P Phase.GLIDE s t po).phase
      = if atan2 (-s.y) (P.targetDist - s.x) < radians P.termLos
          ∨ P.targetDist - s.x < TERMINAL_DIST_THRESHOLD then Phase.TERMINAL
        else Phase.GLIDE := by
  simp [guidanceStep]

theorem guidance_terminal_phase (P : RunParams) (s : SimState) (t : ℝ) (po : Option ℝ) :
    (guidanceStep P Phase.TERMINAL s t po).phase = Phase.TERMINAL := by
  simp [guidanceStep]

theorem guidance_ne_release (P : RunParams) (p : Phase) (s : SimState) (t : ℝ)
    (po : Option ℝ) : (guidanceStep P p s t po).phase ≠ Phase.RELEASE := by
  cases p <;> simp [guidanceStep] <;> split_ifs <;> simp

theorem states_release_t_zero (alt mach distT : ℝ) :
    ∀ n : ℕ, (statesOf alt mach distT n).phase = Phase.RELEASE →
      (statesOf alt mach distT n).t = 0 := by
  intro n
  induction n with
  | zero => intro _; rfl
  | succ m ih =>
    intro h
    by_cases hc : loopCond (statesOf alt mach distT m)
    · rw [statesOf_succ, if_pos hc, stepF_phase] at h
      exact absurd h (guidance_ne_release _ _ _ _ _)
    · rw [statesOf_succ, if_neg hc] at h ⊢
      exact ih h

/-- Allowed one-step phase transitions of `run`'s state machine: staying in
place, RELEASE to BALLISTIC, BALLISTIC to LOFT only when loft is not
skipped and to GLIDE only when it is, LOFT to GLIDE, GLIDE to TERMINAL.
All other pairs (in particular every backward move) are forbidden. -/
def edgeOK ( skip_loft : Bool) : Phase → Phase → Bool
  | .RELEASE, .RELEASE => true
  | .RELEASE, .BALLISTIC => true
  | .BALLISTIC, .BALLISTIC => true
  | .BALLISTIC, .LOFT => ! skip_loft
  | .BALLISTIC, .GLIDE => skip_loft
  | .LOFT, .LOFT => true
  | .LOFT, .GLIDE => true
  | .GLIDE, .GLIDE => true
  | .GLIDE, .TERMINAL => true
  | .TERMINAL, .TERMINAL => true
  | _, _ => false

theorem edgeOK_refl (b : Bool) (p : Phase) : edgeOK b p p = true := by
  cases p <;> rfl

theorem statesOf_edge (alt mach distT : ℝ) (n : ℕ) :
    edgeOK (runParams alt mach distT).skipLoft (statesOf alt mach distT n).phase
      (statesOf alt mach distT (n + 1)).phase = true := by
  by_cases hc : loopCond (statesOf alt mach distT n)
  · rw [statesOf_succ, if_pos hc, stepF_phase]
    rcases hph : (statesOf alt mach distT n).phase with _ | _ | _ | _ | _
    · have ht : (statesOf alt mach distT n).t = 0 := states_release_t_zero _ _ _ n hph
      rw [guidance_release_phase, ht,
        if_neg (by norm_num [BALLISTIC_DURATION] : ¬ BALLISTIC_DURATION ≤ (0 : ℝ))]
      rfl
    · rw [guidance_ballistic_phase]
      by_cases hb : BALLISTIC_DURATION ≤ (statesOf alt mach distT n).t
      · rw [if_pos hb]
        cases hsl : (runParams alt mach distT).skipLoft <;> simp [hsl, edgeOK]
      · rw [if_neg hb]
        rfl
    · rw [guidance_loft_phase]
      split_ifs <;> rfl
    · rw [guidance_glide_phase]
      split_ifs <;> rfl
    · rw [guidance_terminal_phase]
      rfl
  · rw [statesOf_succ, if_neg hc]
    exact edgeOK_refl _ _

/-- Claim C5: the guidance phase sequence of every run is one-directional
with no phase revisited: the initial RELEASE phase advances to BALLISTIC on
the first step; every step follows an allowed forward edge (BALLISTIC goes
to GLIDE exactly when the mode skips loft, i.e. STEEP_DIVE, and otherwise
to LOFT; LOFT exits only to GLIDE; GLIDE exits only to TERMINAL; TERMINAL
never exits); the BALLISTIC exit fires exactly on expiry of the fixed 2.5 s
duration, and the loft-skip flag is exactly `mode == STEEP_DIVE`. -/
theorem run_phase_machine (alt mach distT : ℝ) (h : 0 < alt) :
    (statesOf alt mach distT 1).phase = Phase.BALLISTIC
    ∧ (∀ n : ℕ, edgeOK (runParams alt mach distT).skipLoft
        (statesOf alt mach distT n).phase (statesOf alt mach distT (n + 1)).phase = true)
    ∧ (∀ (s : SimState) (t : ℝ) (po : Option ℝ),
        (guidanceStep (runParams alt mach distT) Phase.BALLISTIC s t po).phase
          = (if BALLISTIC_DURATION ≤ t then
              (if (runParams alt mach distT).skipLoft then Phase.GLIDE else Phase.LOFT)
             else Phase.BALLISTIC)
        ∧ (guidanceStep (runParams alt mach distT) Phase.LOFT s t po).phase
          = (if degrees (atan2 s.vy s.vx) > (runParams alt mach distT).loftElev
               ∨ t > LOFT_TIMEOUT then Phase.GLIDE else Phase.LOFT)
        ∧ (guidanceStep (runParams alt mach distT) Phase.GLIDE s t po).phase
          = (if atan2 (-s.y) ((runParams alt mach distT).targetDist - s.x)
                < radians (runParams alt mach distT).termLos
              ∨ (runParams alt mach distT).targetDist - s.x < TERMINAL_DIST_THRESHOLD
             then Phase.TERMINAL else Phase.GLIDE)
        ∧ (guidanceStep (runParams alt mach distT) Phase.TERMINAL s t po).phase
            = Phase.TERMINAL)
    ∧ (runParams alt mach distT).skipLoft
        = decide (detect_flight_mode alt mach distT = Mode.STEEP_DIVE) := by
  refine ⟨?_, statesOf_edge alt mach distT, ?_, rfl⟩
  · have hc : loopCond (statesOf alt mach distT 0) :=
      ⟨h, by rw [show (statesOf alt mach distT 0).t = 0 from rfl]; norm_num⟩
    rw [statesOf_succ, if_pos hc, stepF_phase]
    have hph : (statesOf alt mach distT 0).phase = Phase.RELEASE := rfl
    have ht : (statesOf alt mach distT 0).t = 0 := rfl
    rw [hph, guidance_release_phase, ht,
      if_neg (by norm_num [BALLISTIC_DURATION] : ¬ BALLISTIC_DURATION ≤ (0 : ℝ))]
  · intro s t po
    exact ⟨guidance_ballistic_phase _ _ _ _, guidance_loft_phase _ _ _ _,
      guidance_glide_phase _ _ _ _, guidance_terminal_phase _ _ _ _⟩

/-- Witness for C5 at a concrete release. -/
theorem run_phase_machine_witness :
    0 < (9000 : ℝ) ∧ (statesOf 9000 0.9 15000 1).phase = Phase.BALLISTIC :=
  ⟨by norm_num, (run_phase_machine 9000 0.9 15000 (by norm_num)).1⟩

-- === C7 counterexample: no G-limiter on the RK4 glide path ===

theorem aeroForces_lift (params : PhysicsProfile) (s : SimState) (aoa : ℝ) :
    (aeroForces params s aoa).2
      = 0.5 * get_air_density s.y
          * (if Real.sqrt (s.vx ^ 2 + s.vy ^ 2) < 1 then 1
             else Real.sqrt (s.vx ^ 2 + s.vy ^ 2)) ^ 2
          * area * WING_AREA_MULT * (params.CL_ALPHA * clampTo aoa params.MAX_AOA)
          * params.LIFT_MULT := by
  simp only [aeroForces]

theorem glide_pitch_ge_low (pl ph ml mh mv : ℝ) :
    (8.25 : ℝ) ≤ glideTargetPitchDeg Mode.MAX_RANGE pl ph ml mh mv := by
  unfold glideTargetPitchDeg
  rw [if_neg (by decide : ¬ (Mode.MAX_RANGE = Mode.STEEP_DIVE)), if_pos rfl]
  split_ifs <;> norm_num [PITCH_HIGH, PITCH_LOW]

/-- Claim C7 counterexample: a mid-flight GLIDE state on the RK4 path
(MAX_RANGE profile, altitude 85 m, speed about 320 m/s in a 45-degree dive)
where the lift-generated acceleration produced by `compute_derivatives`
under the glide-commanded angle of attack exceeds G_LIMIT * g — the claimed
G-limiter does not exist on the RK4 integration path. -/
theorem glide_lift_exceeds_g_limit :
    (PHYSICS_PROFILES Mode.MAX_RANGE).SOLVER = Solver.RK4
    ∧ G_LIMIT * g <
      (aeroForces (PHYSICS_PROFILES Mode.MAX_RANGE) ⟨0, 85, 226, -226⟩
        ((guidanceStep (runParams 500 0.9 20000) Phase.GLIDE ⟨0, 85, 226, -226⟩
          20 none).aoa)).2 / mass := by
  refine ⟨rfl, ?_⟩
  -- the release geometry (alt 500 m, range 20000 m) classifies as MAX_RANGE
  have hatan2 : atan2 (-500 : ℝ) 20000 = -Real.arctan (1 / 40) := by
    unfold atan2
    rw [if_pos (by norm_num : (0 : ℝ) < 20000)]
    rw [show ((-500 : ℝ) / 20000) = -(1 / 40) by norm_num]
    exact Real.arctan_neg _
  have h0 : 0 < Real.arctan (1 / 40 : ℝ) := by
    have h := Real.arctan_strictMono (show (0 : ℝ) < 1 / 40 by norm_num)
    rwa [Real.arctan_zero] at h
  have hlt : Real.arctan (1 / 40 : ℝ) < 1 / 40 := by
    have h2 := Real.lt_tan h0 (Real.arctan_lt_pi_div_two _)
    rwa [Real.tan_arctan] at h2
  have hpi : (3.141592 : ℝ) < pi := Real.pi_gt_d6
  have hnotsteep : ¬ degrees (atan2 (-(500 : ℝ)) 20000) < STEEP_DIVE_LOS := by
    rw [show (-(500 : ℝ)) = (-500 : ℝ) from rfl, hatan2]
    unfold degrees STEEP_DIVE_LOS
    rw [not_lt]
    have hx : Real.arctan (1 / 40) * 180 / pi ≤ 19.04 := by
      rw [div_le_iff₀ (by linarith : (0 : ℝ) < pi)]
      nlinarith [hlt, hpi, h0]
    calc (-19.04 : ℝ) ≤ -(Real.arctan (1 / 40) * 180 / pi) := by linarith
      _ = -Real.arctan (1 / 40) * 180 / pi := by ring
  have hglideGt : ((if (500 : ℝ) > 0 then (20000 : ℝ) / 500 else 999)) > MAX_RANGE_GLIDE := by
    rw [if_pos (by norm_num : (500 : ℝ) > 0)]
    norm_num [MAX_RANGE_GLIDE]
  have hmode : detect_flight_mode 500 0.9 20000 = Mode.MAX_RANGE := by
    unfold detect_flight_mode
    rw [if_neg hnotsteep, if_pos hglideGt]
  have hm : (runParams 500 0.9 20000).mode = Mode.MAX_RANGE := hmode
  -- the glide-commanded AoA at this diving state is at least 0.5
  have hpath : atan2 (-226 : ℝ) 226 = -(pi / 4) := by
    unfold atan2
    rw [if_pos (by norm_num : (0 : ℝ) < 226)]
    rw [show ((-226 : ℝ) / 226) = -1 by norm_num]
    rw [show (-1 : ℝ) = -(1 : ℝ) from rfl, Real.arctan_neg, Real.arctan_one]
  have h05 : (0.5 : ℝ) ≤ (guidanceStep (runParams 500 0.9 20000) Phase.GLIDE
      ⟨0, 85, 226, -226⟩ 20 none).aoa := by
    rw [guidance_glide_aoa]
    rw [show (⟨0, 85, 226, -226⟩ : SimState).vy = (-226 : ℝ) from rfl,
        show (⟨0, 85, 226, -226⟩ : SimState).vx = (226 : ℝ) from rfl, hpath, hm]
    rw [sub_neg_eq_add]
    unfold radians
    nlinarith [glide_pitch_ge_low (runParams 500 0.9 20000).pLow
        (runParams 500 0.9 20000).pHigh (runParams 500 0.9 20000).mLow
        (runParams 500 0.9 20000).mHigh
        (Real.sqrt ((226 : ℝ) ^ 2 + (-226 : ℝ) ^ 2) /
          get_sound_speed (⟨0, 85, 226, -226⟩ : SimState).y),
      hpi, Real.pi_pos]
  have hclamp : clampTo ((guidanceStep (runParams 500 0.9 20000) Phase.GLIDE
      ⟨0, 85, 226, -226⟩ 20 none).aoa) (PHYSICS_PROFILES Mode.MAX_RANGE).MAX_AOA
      = 0.5 := by
    rw [show (PHYSICS_PROFILES Mode.MAX_RANGE).MAX_AOA = (0.5 : ℝ) from rfl]
    exact clampTo_eq_of_le (by norm_num) h05
  -- the lift force at this state and commanded AoA
  rw [aeroForces_lift]
  rw [show (⟨0, 85, 226, -226⟩ : SimState).y = (85 : ℝ) from rfl,
      show (⟨0, 85, 226, -226⟩ : SimState).vx = (226 : ℝ) from rfl,
      show (⟨0, 85, 226, -226⟩ : SimState).vy = (-226 : ℝ) from rfl]
  rw [show ((226 : ℝ) ^ 2 + (-226 : ℝ) ^ 2) = 102152 by norm_num]
  have hv1 : ¬ (Real.sqrt (102152 : ℝ) < 1) := by
    rw [not_lt, show (1 : ℝ) = Real.sqrt 1 from Real.sqrt_one.symm]
    exact Real.sqrt_le_sqrt (by norm_num)
  rw [if_neg hv1, Real.sq_sqrt (by norm_num : (0 : ℝ) ≤ 102152), hclamp]
  rw [show get_air_density 85 = 1.225 * Real.exp (-(85 : ℝ) / 8500) from by
    unfold get_air_density
    rw [if_neg (by norm_num : ¬ (85 : ℝ) < 0)]
    norm_num]
  rw [show (PHYSICS_PROFILES Mode.MAX_RANGE).CL_ALPHA = (1.5 : ℝ) from rfl,
      show (PHYSICS_PROFILES Mode.MAX_RANGE).LIFT_MULT = (0.839 : ℝ) from rfl]
  unfold G_LIMIT g area caliber WING_AREA_MULT mass
  have hexp : (99 / 100 : ℝ) ≤ Real.exp (-(85 : ℝ) / 8500) := by
    linarith [Real.add_one_le_exp (-(85 : ℝ) / 8500)]
  have hprod : (99 / 100 : ℝ) * 3.141592 ≤ Real.exp (-(85 : ℝ) / 8500) * pi :=
    mul_le_mul hexp hpi.le (by norm_num) (le_trans (by norm_num) hexp)
  have hfactor : (0.5 : ℝ) * (1.225 * Real.exp (-(85 : ℝ) / 8500)) * 102152
        * (pi * (0.273 / 2) ^ 2) * 5.7262 * (1.5 * 0.5) * 0.839 / 289.72
      = (Real.exp (-(85 : ℝ) / 8500) * pi)
        * (0.5 * 1.225 * 102152 * ((0.273 / 2) ^ 2) * 5.7262 * (1.5 * 0.5) * 0.839 / 289.72) := by
    ring
  rw [hfactor]
  nlinarith [hprod]

end

end Link18
